import Mathlib

/-!
Verification of the CodEval grading engine (codeval.py) against its design
specification. Python strings are modelled as Lean strings; Python string
comparison is the lexicographic order on the underlying character list,
modelled here by `str_lt`. Byte strings produced by
child processes are modelled as Lean strings as well (the source only
concatenates them and decodes them at the end).
-/

/-- Model of Python `str.startswith`: a character-level prefix test. -/
def str_startswith (s pre : String) : Bool :=
  pre.data.isPrefixOf s.data

/-- Lexicographic comparison of character lists: the order Python uses when
comparing two strings with `<` or `>`. -/
def char_list_lt : List Char → List Char → Bool
  | [], [] => false
  | [], _ :: _ => true
  | _ :: _, [] => false
  | a :: as, b :: bs =>
    if a < b then true
    else if b < a then false
    else char_list_lt as bs

/-- Model of the Python string comparison `a < b` (so `b > a`). -/
def str_lt (a b : String) : Bool :=
  char_list_lt a.data b.data

/-- A feedback comment attached to a submission, as consumed by
`should_check_submission` (fields `comment` and `created_at`). -/
structure SubmissionComment where
  comment : String
  created_at : String
deriving Repr, DecidableEq

/-- The part of a Canvas submission object read by the regrade decision. -/
structure Submission where
  submitted_at : String
  submission_comments : List SubmissionComment
deriving Repr, DecidableEq

/-- Condition tested for each comment inside the loop of
`should_check_submission`: the comment text starts with the automated-grade
marker and its creation time is strictly after the submission time
(Python compares the two timestamp strings with `>`). -/
def is_prior_grade (submitted_at : String) (c : SubmissionComment) : Bool :=
  str_startswith c.comment "[AG]" && str_lt submitted_at c.created_at

/-- The comment loop of `should_check_submission`: walk the given list,
return `false` at the first comment satisfying `is_prior_grade`, and `true`
when the list is exhausted. -/
def check_comments_loop (submitted_at : String) : List SubmissionComment → Bool
  | [] => true
  | c :: rest =>
    if is_prior_grade submitted_at c then false
    else check_comments_loop submitted_at rest

/-- Embedding of `CanvasHandler.should_check_submission`: the source iterates
over `submission.submission_comments[::-1]` (reversed order) and returns
`False` when some comment starts with the `[AG]` marker and was created
strictly after `submitted_at`; otherwise it returns `True`. The source guards
the loop with `if comments:`, which is redundant (an empty list loops zero
times), so the embedding is the bare loop over the reversed list. -/
def should_check_submission (s : Submission) : Bool :=
  check_comments_loop s.submitted_at s.submission_comments.reverse

theorem check_comments_loop_eq_not_any (sa : String) (l : List SubmissionComment) :
    check_comments_loop sa l = !(l.any (is_prior_grade sa)) := by
  induction l with
  | nil => rfl
  | cons c rest ih =>
    by_cases h : is_prior_grade sa c = true
    · simp [check_comments_loop, h]
    · simp [check_comments_loop, h, ih]

theorem should_check_submission_eq_true_iff (s : Submission) :
    should_check_submission s = true ↔
      ∀ c ∈ s.submission_comments,
        ¬(str_startswith c.comment "[AG]" = true ∧ str_lt s.submitted_at c.created_at = true) := by
  unfold should_check_submission
  rw [check_comments_loop_eq_not_any]
  simp [List.any_eq_true, is_prior_grade]

theorem should_check_submission_eq_false_iff (s : Submission) :
    should_check_submission s = false ↔
      ∃ c ∈ s.submission_comments,
        str_startswith c.comment "[AG]" = true ∧ str_lt s.submitted_at c.created_at = true := by
  unfold should_check_submission
  rw [check_comments_loop_eq_not_any]
  simp [List.any_eq_true, is_prior_grade]

/-- Counterexample to the claim that an automated-grade comment created at a
time exactly equal to `submitted_at` makes the regrade decision skip the
submission: with one recognized marker comment whose timestamp equals the
submission timestamp, `should_check_submission` returns `true` (the
submission IS re-run), not `false`, because the source compares with a
strict `>`. -/
theorem c1_counterexample :
    should_check_submission
      { submitted_at := "2024-01-01T00:00:00Z",
        submission_comments :=
          [{ comment := "[AG]\nall tests passed",
             created_at := "2024-01-01T00:00:00Z" }] } = true := by
  decide

/-- C1 (amended): a recognized automated-grade comment causes
`should_check_submission` to return `false` only when its creation time is
strictly greater than `submitted_at`; when every marker comment has creation
time equal to or before `submitted_at` (in particular exactly equal), the
decision returns `true` and the submission is re-run. -/
theorem c1_equal_timestamp_is_rerun (s : Submission)
    (h : ∀ c ∈ s.submission_comments,
      str_startswith c.comment "[AG]" = true → ¬(str_lt s.submitted_at c.created_at = true)) :
    should_check_submission s = true := by
  rw [should_check_submission_eq_true_iff]
  intro c hc hcontra
  exact h c hc hcontra.1 hcontra.2

/-- Witness for `c1_equal_timestamp_is_rerun` at a concrete submission whose
single marker comment has creation time equal to the submission time. -/
theorem c1_witness :
    should_check_submission
      { submitted_at := "2024-01-01T00:00:00Z",
        submission_comments :=
          [{ comment := "[AG]\nok", created_at := "2024-01-01T00:00:00Z" }] } = true :=
  c1_equal_timestamp_is_rerun _ (by decide)

/-- The keys of codeval.ini consumed by the grading engine. `command` is
required (checked at startup); the other three are optional keys of the
[RUN] section. -/
structure IniConfig where
  command : String
  precommand : Option String
  dist_command : Option String
  host_ip : Option String

/-- The process-global mutable state the source threads through a grading
run: the module globals `compile_timeout` (initially 20) and
`has_distributed_tests` (initially `false`), and the handler attribute
`self.executable` (initially `None`, reset to `None` at the start of each
descriptor parse). None of the three is reset between assignments except
`executable`. -/
structure GlobalState where
  compile_timeout : Int
  has_distributed_tests : Bool
  executable : Option String
deriving Repr, DecidableEq

/-- The values of the globals when the process starts. -/
def initial_globals : GlobalState :=
  { compile_timeout := 20, has_distributed_tests := false, executable := none }


/-- Model of Python `str.strip()`: drop whitespace characters from both
ends of the string. -/
def py_strip (s : String) : String :=
  ⟨((s.data.dropWhile Char.isWhitespace).reverse.dropWhile Char.isWhitespace).reverse⟩

/-- Splitting a character list at every occurrence of a separator character,
keeping empty fields, as Python `str.split(sep)` does with an explicit
separator. The result is always nonempty. -/
def split_char_list (sep : Char) : List Char → List (List Char)
  | [] => [[]]
  | c :: cs =>
    match split_char_list sep cs with
    | [] => if c = sep then [[], [c]] else [[c]]
    | g :: gs => if c = sep then [] :: g :: gs else (c :: g) :: gs

/-- Model of Python `line.split(" ")`. -/
def py_split_space (s : String) : List String :=
  (split_char_list ' ' s.data).map (fun l => ⟨l⟩)

/-- Model of Python `"".join(parts)`. -/
def py_join (parts : List String) : String :=
  ⟨(parts.map String.data).flatten⟩

/-- Digits of a token read as a natural number, `none` when some character
is not a decimal digit or the token is empty. -/
def parse_digits (ds : List Char) : Option Nat :=
  if ds = [] then none
  else if ds.all Char.isDigit then
    some (ds.foldl (fun n c => 10 * n + (c.toNat - '0'.toNat)) 0)
  else none

/-- Model of Python `int(tok)` on a whitespace-free token: an optional sign
followed by decimal digits; `none` models the `ValueError` raise. -/
def py_int_of_string (s : String) : Option Int :=
  match s.data with
  | '-' :: ds => (parse_digits ds).map (fun n => -(n : Int))
  | '+' :: ds => (parse_digits ds).map (fun n => (n : Int))
  | ds => (parse_digits ds).map (fun n => (n : Int))

/-- The first whitespace-separated token of a stripped descriptor line:
`line.strip().split(" ")[0]` (total because the split of a nonempty
stripped line is nonempty; on an empty line it is the empty string, which
matches no directive keyword). -/
def first_token (line : String) : String :=
  match py_split_space (py_strip line) with
  | [] => ""
  | t :: _ => t

/-- One iteration of the directive loop in
`CanvasHandler.get_valid_test_file`. `archives` maps an extra-file archive
name to the file names its extraction adds to the fixed-files directory
(`none` models a failing download, which raises). `destFiles` is the
current listing of the fixed-files directory. The third component is
`some msg` when the Python code raises on this line (bad CTO argument,
missing USING file, missing archive, missing distributed configuration);
the state mutations performed before the raise are kept, because they act
on process globals. -/
def process_codeval_line (cfg : IniConfig) (archives : String → Option (List String))
    (st : GlobalState) (destFiles : List String) (line : String) :
    GlobalState × List String × Option String :=
  if py_strip line = "" then (st, destFiles, none)
  else if first_token line = "Z" then
    match archives (py_join ((py_split_space (py_strip line)).drop 1)) with
    | none =>
      (st, destFiles,
        some (py_join ((py_split_space (py_strip line)).drop 1) ++
          " file not found in course files/CodEval."))
    | some files => (st, destFiles ++ files, none)
  else if first_token line = "CTO" then
    match ((py_split_space (py_strip line)).drop 1).head? with
    | none => (st, destFiles, some "IndexError: list index out of range")
    | some tok =>
      match py_int_of_string tok with
      | none => (st, destFiles, some "ValueError: invalid literal for int")
      | some n => ({ st with compile_timeout := n }, destFiles, none)
  else if first_token line = "USING" then
    match ((py_split_space (py_strip line)).drop 1).head? with
    | none => (st, destFiles, some "IndexError: list index out of range")
    | some file_name =>
      if file_name ∈ destFiles then
        ({ st with executable := some file_name }, destFiles, none)
      else
        (st, destFiles, some (file_name ++ " not found in the directory"))
  else if first_token line = "--DT--" then
    if cfg.dist_command.isSome && cfg.host_ip.isSome then
      ({ st with has_distributed_tests := true }, destFiles, none)
    else
      ({ st with has_distributed_tests := true }, destFiles,
        some "missing distributed test configuration")
  else
    (st, destFiles, none)

/-- The descriptor line loop: process lines in order, stopping at the first
raised error but keeping the global-state mutations already performed. -/
def run_codeval_lines (cfg : IniConfig) (archives : String → Option (List String)) :
    GlobalState → List String → List String → GlobalState × List String × Option String
  | st, destFiles, [] => (st, destFiles, none)
  | st, destFiles, l :: ls =>
    match process_codeval_line cfg archives st destFiles l with
    | (st1, df1, none) => run_codeval_lines cfg archives st1 df1 ls
    | (st1, df1, some e) => (st1, df1, some e)

/-- Embedding of `CanvasHandler.get_valid_test_file`. The descriptor is
`none` when the `<assignment>.codeval` file does not exist in the course
(the source raises `FileNotFoundError` before touching any state), and
`some lines` otherwise; in the latter case the testcase file has just been
downloaded into the fresh per-assignment fixed directory as
`testcases.txt`, `self.executable` is reset to `None`, and the lines are
processed in order. -/
def get_valid_test_file (cfg : IniConfig) (archives : String → Option (List String))
    (st : GlobalState) (descriptor : Option (List String)) :
    GlobalState × List String × Option String :=
  match descriptor with
  | none => (st, [], some "FileNotFoundError")
  | some lines =>
    run_codeval_lines cfg archives { st with executable := none } ["testcases.txt"] lines

/-- A configuration with the distributed keys present, used in concrete
counterexamples. -/
def cfg_with_dist : IniConfig :=
  { command := "EVALUATE SUBMISSIONS", precommand := none,
    dist_command := some "dt.sh", host_ip := some "10.0.0.1" }

/-- An archive oracle for concrete runs: no extra-file archive exists. -/
def no_archives : String → Option (List String) := fun _ => none

/-- Counterexample to the claim that descriptor state is built fresh per
assignment: after parsing a first descriptor containing `CTO 45` and
`--DT--`, parsing a second descriptor that contains no CTO line and no
--DT-- line leaves `compile_timeout` at 45 (not the default 20) and
`has_distributed_tests` at `true` (not `false`): both directives act on
process globals that are never reset between assignments. -/
theorem c3_counterexample :
    (get_valid_test_file cfg_with_dist no_archives
        (get_valid_test_file cfg_with_dist no_archives initial_globals
          (some ["CTO 45", "--DT--"])).1
        (some ["echo hello"])).1.compile_timeout = 45 ∧
    (get_valid_test_file cfg_with_dist no_archives
        (get_valid_test_file cfg_with_dist no_archives initial_globals
          (some ["CTO 45", "--DT--"])).1
        (some ["echo hello"])).1.has_distributed_tests = true ∧
    (45 : Int) ≠ 20 := by
  refine ⟨by decide, by decide, by decide⟩

theorem process_codeval_line_preserves_cto (cfg : IniConfig)
    (archives : String → Option (List String)) (st : GlobalState)
    (destFiles : List String) (l : String) (h : first_token l ≠ "CTO") :
    (process_codeval_line cfg archives st destFiles l).1.compile_timeout =
      st.compile_timeout := by
  unfold process_codeval_line
  by_cases he : py_strip l = ""
  · rw [if_pos he]
  · rw [if_neg he]
    by_cases hz : first_token l = "Z"
    · rw [if_pos hz]
      split <;> rfl
    · rw [if_neg hz, if_neg h]
      by_cases hu : first_token l = "USING"
      · rw [if_pos hu]
        split
        · rfl
        · split <;> rfl
      · rw [if_neg hu]
        by_cases hd : first_token l = "--DT--"
        · rw [if_pos hd]
          split <;> rfl
        · rw [if_neg hd]

theorem process_codeval_line_preserves_dt (cfg : IniConfig)
    (archives : String → Option (List String)) (st : GlobalState)
    (destFiles : List String) (l : String) (h : first_token l ≠ "--DT--") :
    (process_codeval_line cfg archives st destFiles l).1.has_distributed_tests =
      st.has_distributed_tests := by
  unfold process_codeval_line
  by_cases he : py_strip l = ""
  · rw [if_pos he]
  · rw [if_neg he]
    by_cases hz : first_token l = "Z"
    · rw [if_pos hz]
      split <;> rfl
    · rw [if_neg hz]
      by_cases hcto : first_token l = "CTO"
      · rw [if_pos hcto]
        split
        · rfl
        · split <;> rfl
      · rw [if_neg hcto]
        by_cases hu : first_token l = "USING"
        · rw [if_pos hu]
          split
          · rfl
          · split <;> rfl
        · rw [if_neg hu, if_neg h]

theorem run_codeval_lines_preserves (cfg : IniConfig)
    (archives : String → Option (List String)) :
    ∀ (lines : List String) (st : GlobalState) (destFiles : List String),
      (∀ l ∈ lines, first_token l ≠ "CTO") →
      (∀ l ∈ lines, first_token l ≠ "--DT--") →
      (run_codeval_lines cfg archives st destFiles lines).1.compile_timeout =
          st.compile_timeout ∧
        (run_codeval_lines cfg archives st destFiles lines).1.has_distributed_tests =
          st.has_distributed_tests := by
  intro lines
  induction lines with
  | nil => intro st destFiles _ _; exact ⟨rfl, rfl⟩
  | cons l ls ih =>
    intro st destFiles hcto hdt
    have hl1 := process_codeval_line_preserves_cto cfg archives st destFiles l
      (hcto l (List.mem_cons_self l ls))
    have hl2 := process_codeval_line_preserves_dt cfg archives st destFiles l
      (hdt l (List.mem_cons_self l ls))
    unfold run_codeval_lines
    rcases hres : process_codeval_line cfg archives st destFiles l with ⟨st1, df1, err?⟩
    rw [hres] at hl1 hl2
    cases err? with
    | none =>
      simp only
      have := ih st1 df1 (fun x hx => hcto x (List.mem_cons_of_mem l hx))
        (fun x hx => hdt x (List.mem_cons_of_mem l hx))
      exact ⟨this.1.trans hl1, this.2.trans hl2⟩
    | some e => exact ⟨hl1, hl2⟩

/-- C3 (amended): the descriptor values are not built fresh per assignment;
`compile_timeout` and `has_distributed_tests` are process globals that the
parse mutates in place. Parsing a descriptor with no CTO line leaves
`compile_timeout` at whatever value the previously processed assignments
left it (20 only until the first CTO line of the process), and parsing a
descriptor with no --DT-- line leaves `has_distributed_tests` at its prior
value; only `executable` is reset at the start of each parse. -/
theorem c3_descriptor_state_persists (cfg : IniConfig)
    (archives : String → Option (List String)) (st : GlobalState)
    (lines : List String)
    (hcto : ∀ l ∈ lines, first_token l ≠ "CTO")
    (hdt : ∀ l ∈ lines, first_token l ≠ "--DT--") :
    (get_valid_test_file cfg archives st (some lines)).1.compile_timeout =
        st.compile_timeout ∧
      (get_valid_test_file cfg archives st (some lines)).1.has_distributed_tests =
        st.has_distributed_tests := by
  unfold get_valid_test_file
  exact run_codeval_lines_preserves cfg archives lines
    { st with executable := none } ["testcases.txt"] hcto hdt

/-- Witness for `c3_descriptor_state_persists`: a state carried over from an
earlier assignment (timeout 45, distributed tests on) survives a descriptor
with neither directive. -/
theorem c3_witness :
    (get_valid_test_file cfg_with_dist no_archives
        { compile_timeout := 45, has_distributed_tests := true, executable := none }
        (some ["echo hello"])).1.compile_timeout = 45 ∧
      (get_valid_test_file cfg_with_dist no_archives
        { compile_timeout := 45, has_distributed_tests := true, executable := none }
        (some ["echo hello"])).1.has_distributed_tests = true :=
  c3_descriptor_state_persists cfg_with_dist no_archives
    { compile_timeout := 45, has_distributed_tests := true, executable := none }
    ["echo hello"] (by decide) (by decide)

/-- Outcome of one blocking `Popen` + `communicate(timeout=...)` call,
supplied as an oracle: either the child finished within the timeout with
the given stdout bytes, stderr bytes and return code, or the timeout
expired; in the latter case `outAfterKill` is the buffered output that a
subsequent kill-and-drain `communicate()` would return. -/
inductive ExecOutcome where
  | finished (out : String) (err : String) (returncode : Int)
  | expired (outAfterKill : String)
deriving Repr, DecidableEq

/-- Observable side effects of one grading pass, in order of occurrence. -/
inductive Effect where
  | spawn (cmd : String) (cwd : Option String) (timeout : Int)
  | kill (cmd : String)
  | markInactive (assignment_id : String) (student_id : String)
  | distRun (dist_command : String) (host_ip : String) (temp_fixed : String)
      (tmpdir : String) (testcases : String)
  | copyTree (tmpdir : String)
  | logInfo (msg : String)
  | logWarn (msg : String)
  | postComment (user_name : String) (text : String)
  | warnSkipAssignment (name : String) (msg : String)
deriving Repr, DecidableEq

/-- Exceptions that `CanvasHandler.evaluate` can raise to its caller. -/
inductive EvalError where
  | configError (msg : String)
  | stderrError (err : String)
  | timeoutExpired (cmd : String) (timeout : Int)
deriving Repr, DecidableEq

/-- Python `str(e)` of the exceptions `evaluate` can raise:
`errorWithException` raises with its message, and `str` of a
`subprocess.TimeoutExpired` names the command and the threshold. -/
def eval_error_message : EvalError → String
  | .configError m => m
  | .stderrError e => e
  | .timeoutExpired cmd t =>
    "Command " ++ cmd ++ " timed out after " ++ toString t ++ " seconds"

/-- The per-submission identifiers passed to the distributed coordinator. -/
structure DistData where
  assignment_id : String
  student_id : String
deriving Repr, DecidableEq

/-- The oracle describing how the child processes of one evaluation behave. -/
structure ProcBehavior where
  precResult : ExecOutcome
  mainResult : ExecOutcome
  distOutput : String
deriving Repr, DecidableEq

/-- Left-to-right, non-overlapping replacement of every occurrence of a
non-empty pattern in a character list, the semantics of Python
`str.replace` for the literal patterns used by `evaluate`. An empty
pattern is returned unchanged (the source only replaces the non-empty
literals `EVALUATE` and `SUBMISSIONS`). -/
def replace_chars (pat repl : List Char) : Nat → List Char → List Char
  | 0, s => s
  | _ + 1, [] => []
  | fuel + 1, c :: cs =>
    if pat ≠ [] ∧ pat.isPrefixOf (c :: cs) then
      repl ++ replace_chars pat repl fuel ((c :: cs).drop pat.length)
    else
      c :: replace_chars pat repl fuel cs

/-- Model of Python `s.replace(pat, repl)`. The fuel argument makes the
recursion structural; every step consumes at least one character, so fuel
equal to the length of the string suffices. -/
def py_replace (s pat repl : String) : String :=
  ⟨replace_chars pat.data repl.data s.data.length s.data⟩

/-- The command template after the textual substitutions done in
`evaluate`: `EVALUATE` is replaced by `self.executable` when that is set
and non-empty (Python truthiness of `if self.executable:`), else by
`./evaluate.sh`; then `SUBMISSIONS` is replaced by the submission
directory. -/
def substituted_command (cfg : IniConfig) (st : GlobalState) (tmpdir : String) : String :=
  let command :=
    match st.executable with
    | some exe =>
      if exe = "" then py_replace cfg.command "EVALUATE" "./evaluate.sh"
      else py_replace cfg.command "EVALUATE" exe
    | none => py_replace cfg.command "EVALUATE" "./evaluate.sh"
  py_replace command "SUBMISSIONS" tmpdir

/-- Embedding of `CanvasHandler.evaluate`. Returns the effects performed,
in order, and either the output bytes returned to the caller or the
exception raised. Faithful points of the source: the precommand `Popen`
passes no `cwd` (the child inherits the working directory of the grading
process, recorded as `none`); its `communicate(timeout=compile_timeout)`
is not wrapped in a `try`, so `subprocess.TimeoutExpired` propagates
without any kill; a non-empty precommand stderr raises via
`errorWithException` before the main command is built; the main command
`Popen` also passes no `cwd` and merges stderr into stdout; on main-command
timeout the child is killed, the drained output is kept and a marker line
naming `compile_timeout` is appended; on non-zero exit or timeout the
distributed record is marked inactive and the distributed pass is skipped;
on success the distributed pass runs only when `has_distributed_tests`. -/
def prec_step (cfg : IniConfig) (st : GlobalState) (beh : ProcBehavior) :
    List Effect × Option EvalError :=
  match cfg.precommand with
  | none => ([], none)
  | some pre =>
    match beh.precResult with
    | .finished _out err _rc =>
      if err = "" then ([.spawn pre none st.compile_timeout], none)
      else ([.spawn pre none st.compile_timeout], some (.stderrError err))
    | .expired _ =>
      ([.spawn pre none st.compile_timeout],
        some (.timeoutExpired pre st.compile_timeout))

/-- The literal diagnostic line appended to the drained output when the
main evaluation command times out. -/
def timeout_marker (timeout : Int) : String :=
  "\nTOOK LONGER THAN " ++ toString timeout ++ " seconds to run. FAILED\n"

/-- The main-command phase of `evaluate` (everything after the precommand
has not raised): build the command by substitution, spawn it (no `cwd`,
stderr merged into stdout), and handle exit or timeout; `effs` are the
effects already performed by the precommand phase. -/
def main_step (cfg : IniConfig) (st : GlobalState) (beh : ProcBehavior)
    (temp_fixed : String) (tmpdir : String) (d : DistData) (effs : List Effect) :
    List Effect × Except EvalError String :=
  let command := substituted_command cfg st tmpdir
  let effs := effs ++ [.spawn command none st.compile_timeout]
  match beh.mainResult with
  | .finished out _err rc =>
    if rc ≠ 0 then
      (effs ++ [.markInactive d.assignment_id d.student_id], .ok out)
    else if st.has_distributed_tests then
      (effs ++
          [.distRun (cfg.dist_command.getD "") (cfg.host_ip.getD "")
            temp_fixed tmpdir (tmpdir ++ "/testcases.txt")],
        .ok (out ++ beh.distOutput))
    else
      (effs, .ok out)
  | .expired drained =>
    (effs ++ [.kill command, .markInactive d.assignment_id d.student_id],
      .ok (drained ++ timeout_marker st.compile_timeout))

def evaluate (cfg : IniConfig) (st : GlobalState) (beh : ProcBehavior)
    (temp_fixed : String) (tmpdir : String) (d : DistData) :
    List Effect × Except EvalError String :=
  if cfg.command = "" then
    ([], .error (.configError "commands section under [RUN] in codeval.ini is empty"))
  else
    match prec_step cfg st beh with
    | (effs, some e) => (effs, .error e)
    | (effs, none) => main_step cfg st beh temp_fixed tmpdir d effs

/-- The precommand phase of a run raised no exception: either no
precommand is configured, or it finished with an empty error stream. -/
def prec_ok (cfg : IniConfig) (beh : ProcBehavior) : Prop :=
  cfg.precommand = none ∨ ∃ out rc, beh.precResult = .finished out "" rc

theorem evaluate_of_prec_none (cfg : IniConfig) (st : GlobalState)
    (beh : ProcBehavior) (tf td : String) (d : DistData)
    (hcmd : cfg.command ≠ "") (h : cfg.precommand = none) :
    evaluate cfg st beh tf td d = main_step cfg st beh tf td d [] := by
  unfold evaluate prec_step
  rw [if_neg hcmd, h]

theorem evaluate_of_prec_clean (cfg : IniConfig) (st : GlobalState)
    (beh : ProcBehavior) (tf td : String) (d : DistData) (pre out : String)
    (rc : Int) (hcmd : cfg.command ≠ "") (h : cfg.precommand = some pre)
    (hres : beh.precResult = .finished out "" rc) :
    evaluate cfg st beh tf td d =
      main_step cfg st beh tf td d [.spawn pre none st.compile_timeout] := by
  unfold evaluate prec_step
  rw [if_neg hcmd, h, hres]
  simp

theorem evaluate_of_prec_ok (cfg : IniConfig) (st : GlobalState)
    (beh : ProcBehavior) (tf td : String) (d : DistData)
    (hcmd : cfg.command ≠ "") (h : prec_ok cfg beh) :
    ∃ pe : List Effect,
      (pe = [] ∨ ∃ pre, pe = [.spawn pre none st.compile_timeout]) ∧
        evaluate cfg st beh tf td d = main_step cfg st beh tf td d pe := by
  rcases h with h | ⟨out, rc, hres⟩
  · exact ⟨[], Or.inl rfl, evaluate_of_prec_none cfg st beh tf td d hcmd h⟩
  · cases hp : cfg.precommand with
    | none => exact ⟨[], Or.inl rfl, evaluate_of_prec_none cfg st beh tf td d hcmd hp⟩
    | some pre =>
      exact ⟨[.spawn pre none st.compile_timeout], Or.inr ⟨pre, rfl⟩,
        evaluate_of_prec_clean cfg st beh tf td d pre out rc hcmd hp hres⟩

/-- A configuration with a precommand, used in concrete runs. -/
def cfg_pre : IniConfig :=
  { command := "EVALUATE SUBMISSIONS", precommand := some "make",
    dist_command := none, host_ip := none }

/-- Identifiers of a concrete submission. -/
def d0 : DistData := { assignment_id := "101", student_id := "42" }

/-- A behavior where every child process succeeds quietly. -/
def beh_ok : ProcBehavior :=
  { precResult := .finished "built" "" 0, mainResult := .finished "PASSED" "" 0,
    distOutput := "" }

deriving instance DecidableEq for Except

theorem evaluate_of_prec_stderr (cfg : IniConfig) (st : GlobalState)
    (beh : ProcBehavior) (tf td : String) (d : DistData) (pre out err : String)
    (rc : Int) (hcmd : cfg.command ≠ "") (hpre : cfg.precommand = some pre)
    (hres : beh.precResult = .finished out err rc) (herr : err ≠ "") :
    evaluate cfg st beh tf td d =
      ([.spawn pre none st.compile_timeout], .error (.stderrError err)) := by
  unfold evaluate prec_step
  rw [if_neg hcmd, hpre, hres]
  dsimp only
  rw [if_neg herr]

theorem evaluate_of_prec_expired (cfg : IniConfig) (st : GlobalState)
    (beh : ProcBehavior) (tf td : String) (d : DistData) (pre po : String)
    (hcmd : cfg.command ≠ "") (hpre : cfg.precommand = some pre)
    (hres : beh.precResult = .expired po) :
    evaluate cfg st beh tf td d =
      ([.spawn pre none st.compile_timeout],
        .error (.timeoutExpired pre st.compile_timeout)) := by
  unfold evaluate prec_step
  rw [if_neg hcmd, hpre, hres]

theorem main_step_effects_shape (cfg : IniConfig) (st : GlobalState)
    (beh : ProcBehavior) (tf td : String) (d : DistData) (effs : List Effect) :
    ∃ rest : List Effect,
      (main_step cfg st beh tf td d effs).1 =
        effs ++ [.spawn (substituted_command cfg st td) none st.compile_timeout] ++ rest := by
  unfold main_step
  cases beh.mainResult with
  | finished out err rc =>
    dsimp only
    by_cases hrc : rc ≠ 0
    · rw [if_pos hrc]
      exact ⟨[.markInactive d.assignment_id d.student_id], by simp⟩
    · rw [if_neg hrc]
      by_cases hdt : st.has_distributed_tests
      · rw [if_pos hdt]
        exact ⟨[.distRun (cfg.dist_command.getD "") (cfg.host_ip.getD "")
          tf td (td ++ "/testcases.txt")], by simp⟩
      · rw [if_neg hdt]
        exact ⟨[], by simp⟩
  | expired drained =>
    exact ⟨[.kill (substituted_command cfg st td),
      .markInactive d.assignment_id d.student_id], by simp⟩

/-- Counterexample to the claim that the precommand child runs with working
directory equal to the submission working directory: in the source the
precommand `Popen` passes no `cwd`, so the child inherits the grading
process directory. On a concrete successful run the only precommand spawn
in the trace carries `cwd = none`, and no spawn of the precommand with
`cwd = some workDir` occurs. -/
theorem c2_counterexample :
    evaluate cfg_pre initial_globals beh_ok "fixed" "/tmp/codevalsub" d0 =
      ([.spawn "make" none 20,
        .spawn "./evaluate.sh /tmp/codevalsub" none 20], .ok "PASSED") ∧
    Effect.spawn "make" (some "/tmp/codevalsub") 20 ∉
      (evaluate cfg_pre initial_globals beh_ok "fixed" "/tmp/codevalsub" d0).1 := by
  refine ⟨by decide, by decide⟩

/-- C2 (amended): when a precommand is configured it is run as a child
process that inherits the working directory of the grading process (the
`Popen` call passes no `cwd`; the working directory is NOT the submission
workDir), under the shared `compile_timeout`; a non-empty error stream
raises before the main evaluation command is built, so the trace then holds
the precommand spawn and nothing else. -/
theorem c2_precommand_inherits_cwd (cfg : IniConfig) (st : GlobalState)
    (beh : ProcBehavior) (tf td : String) (d : DistData) (pre : String)
    (hcmd : cfg.command ≠ "") (hpre : cfg.precommand = some pre) :
    (evaluate cfg st beh tf td d).1.head? =
        some (.spawn pre none st.compile_timeout) ∧
      ∀ out err rc, beh.precResult = .finished out err rc → err ≠ "" →
        evaluate cfg st beh tf td d =
          ([.spawn pre none st.compile_timeout], .error (.stderrError err)) := by
  constructor
  · cases hres : beh.precResult with
    | finished out err rc =>
      by_cases he : err = ""
      · subst he
        rw [evaluate_of_prec_clean cfg st beh tf td d pre out rc hcmd hpre hres]
        rcases main_step_effects_shape cfg st beh tf td d
          [.spawn pre none st.compile_timeout] with ⟨rest, hshape⟩
        rw [hshape]
        rfl
      · rw [evaluate_of_prec_stderr cfg st beh tf td d pre out err rc hcmd hpre hres he]
        rfl
    | expired po =>
      rw [evaluate_of_prec_expired cfg st beh tf td d pre po hcmd hpre hres]
      rfl
  · intro out err rc hres herr
    exact evaluate_of_prec_stderr cfg st beh tf td d pre out err rc hcmd hpre hres herr

/-- A behavior whose precommand finishes but writes to its error stream. -/
def beh_prec_stderr : ProcBehavior :=
  { precResult := .finished "" "cc: error" 1, mainResult := .finished "" "" 0,
    distOutput := "" }

/-- Witness for `c2_precommand_inherits_cwd` at a concrete configuration
whose precommand writes to its error stream. -/
theorem c2_witness :
    (evaluate cfg_pre initial_globals beh_prec_stderr "fixed" "/tmp/sub" d0).1.head? =
        some (.spawn "make" none 20) ∧
      evaluate cfg_pre initial_globals beh_prec_stderr "fixed" "/tmp/sub" d0 =
        ([.spawn "make" none 20], .error (.stderrError "cc: error")) :=
  ⟨(c2_precommand_inherits_cwd cfg_pre initial_globals beh_prec_stderr
      "fixed" "/tmp/sub" d0 "make" (by decide) (by decide)).1,
    (c2_precommand_inherits_cwd cfg_pre initial_globals beh_prec_stderr
      "fixed" "/tmp/sub" d0 "make" (by decide) (by decide)).2
      "" "cc: error" 1 rfl (by decide)⟩

theorem main_step_nonzero (cfg : IniConfig) (st : GlobalState)
    (beh : ProcBehavior) (tf td : String) (d : DistData) (effs : List Effect)
    (out err : String) (rc : Int)
    (hmain : beh.mainResult = .finished out err rc) (hrc : rc ≠ 0) :
    main_step cfg st beh tf td d effs =
      (effs ++ [.spawn (substituted_command cfg st td) none st.compile_timeout,
          .markInactive d.assignment_id d.student_id], .ok out) := by
  unfold main_step
  rw [hmain]
  dsimp only
  rw [if_pos hrc]
  simp

theorem main_step_expired (cfg : IniConfig) (st : GlobalState)
    (beh : ProcBehavior) (tf td : String) (d : DistData) (effs : List Effect)
    (drained : String) (hmain : beh.mainResult = .expired drained) :
    main_step cfg st beh tf td d effs =
      (effs ++ [.spawn (substituted_command cfg st td) none st.compile_timeout,
          .kill (substituted_command cfg st td),
          .markInactive d.assignment_id d.student_id],
        .ok (drained ++ timeout_marker st.compile_timeout)) := by
  unfold main_step
  rw [hmain]
  simp

/-- A behavior whose precommand itself exceeds the timeout. -/
def beh_prec_timeout : ProcBehavior :=
  { precResult := .expired "partial build output",
    mainResult := .finished "" "" 0, distOutput := "" }

/-- Counterexample to the claim that every blocking child-process execution
is killed on timeout with its buffered output preserved and annotated: a
precommand timeout makes `communicate(timeout=...)` raise
`subprocess.TimeoutExpired` with no handler in `evaluate`; the child is not
killed, and the buffered output ("partial build output") appears nowhere in
the outcome — the evaluation ends in the propagated exception instead of an
annotated report. -/
theorem c4_counterexample :
    evaluate cfg_pre initial_globals beh_prec_timeout "fixed" "/tmp/codevalsub" d0 =
      ([.spawn "make" none 20], .error (.timeoutExpired "make" 20)) ∧
    Effect.kill "make" ∉
      (evaluate cfg_pre initial_globals beh_prec_timeout "fixed" "/tmp/codevalsub" d0).1 := by
  refine ⟨by decide, by decide⟩

/-- C4 (amended): forced termination with preserved, annotated output
applies only to the main evaluation command: on a main-command timeout the
child is killed and the drained output plus the timeout marker is returned,
while a precommand timeout propagates `subprocess.TimeoutExpired` out of
`evaluate` with no kill and no output preservation (it is caught one level
up and turned into an error report). -/
theorem c4_kill_and_preserve_only_main (cfg : IniConfig) (st : GlobalState)
    (beh : ProcBehavior) (tf td : String) (d : DistData)
    (hcmd : cfg.command ≠ "") :
    (∀ drained, prec_ok cfg beh → beh.mainResult = .expired drained →
      Effect.kill (substituted_command cfg st td) ∈ (evaluate cfg st beh tf td d).1 ∧
        (evaluate cfg st beh tf td d).2 =
          .ok (drained ++ timeout_marker st.compile_timeout)) ∧
      ∀ pre po, cfg.precommand = some pre → beh.precResult = .expired po →
        evaluate cfg st beh tf td d =
          ([.spawn pre none st.compile_timeout],
            .error (.timeoutExpired pre st.compile_timeout)) := by
  constructor
  · intro drained hpre hmain
    rcases evaluate_of_prec_ok cfg st beh tf td d hcmd hpre with ⟨pe, _hpe, heq⟩
    rw [heq, main_step_expired cfg st beh tf td d pe drained hmain]
    constructor
    · simp
    · rfl
  · intro pre po hpre hres
    exact evaluate_of_prec_expired cfg st beh tf td d pre po hcmd hpre hres

/-- A behavior whose main evaluation command exceeds the timeout after a
clean precommand. -/
def beh_main_timeout : ProcBehavior :=
  { precResult := .finished "built" "" 0, mainResult := .expired "some output",
    distOutput := "" }

/-- Witness for `c4_kill_and_preserve_only_main`: on a concrete run whose
main command times out, the kill effect is present and the preserved
drained output carries the timeout marker; on a concrete run whose
precommand times out, the exception propagates with no kill. -/
theorem c4_witness :
    (Effect.kill (substituted_command cfg_pre initial_globals "/tmp/sub") ∈
        (evaluate cfg_pre initial_globals beh_main_timeout "fixed" "/tmp/sub" d0).1 ∧
      (evaluate cfg_pre initial_globals beh_main_timeout "fixed" "/tmp/sub" d0).2 =
        .ok ("some output" ++ timeout_marker 20)) ∧
    evaluate cfg_pre initial_globals beh_prec_timeout "fixed" "/tmp/sub" d0 =
      ([.spawn "make" none 20], .error (.timeoutExpired "make" 20)) :=
  ⟨(c4_kill_and_preserve_only_main cfg_pre initial_globals beh_main_timeout
      "fixed" "/tmp/sub" d0 (by decide)).1 "some output"
      (Or.inr ⟨"built", 0, rfl⟩) rfl,
    (c4_kill_and_preserve_only_main cfg_pre initial_globals beh_prec_timeout
      "fixed" "/tmp/sub" d0 (by decide)).2 "make" "partial build output" rfl rfl⟩

/-- C5 (confirmed): when the main evaluation command exceeds its timeout,
`evaluate` returns normally (an `.ok` result, never an exception to the
caller), and the returned output is the drained output followed by the
literal timeout-notice line, which spells out the configured
`compile_timeout` threshold. -/
theorem c5_timeout_marker_in_output (cfg : IniConfig) (st : GlobalState)
    (beh : ProcBehavior) (tf td : String) (d : DistData) (drained : String)
    (hcmd : cfg.command ≠ "") (hpre : prec_ok cfg beh)
    (hmain : beh.mainResult = .expired drained) :
    (evaluate cfg st beh tf td d).2 =
        .ok (drained ++ timeout_marker st.compile_timeout) ∧
      timeout_marker st.compile_timeout =
        "\nTOOK LONGER THAN " ++ toString st.compile_timeout ++
          " seconds to run. FAILED\n" := by
  constructor
  · rcases evaluate_of_prec_ok cfg st beh tf td d hcmd hpre with ⟨pe, _hpe, heq⟩
    rw [heq, main_step_expired cfg st beh tf td d pe drained hmain]
  · rfl

/-- Witness for `c5_timeout_marker_in_output` on a concrete timed-out run. -/
theorem c5_witness :
    (evaluate cfg_pre initial_globals beh_main_timeout "fixed" "/tmp/sub" d0).2 =
        .ok ("some output" ++ timeout_marker 20) ∧
      timeout_marker 20 =
        "\nTOOK LONGER THAN " ++ toString (20 : Int) ++
          " seconds to run. FAILED\n" :=
  c5_timeout_marker_in_output cfg_pre initial_globals beh_main_timeout
    "fixed" "/tmp/sub" d0 "some output" (by decide) (Or.inr ⟨"built", 0, rfl⟩) rfl

/-- C6 (confirmed): whenever the main evaluation command exits non-zero or
times out, the inactive-marking effect is recorded with the submission
assignment and student identifiers — the statement quantifies over every
global state, so it holds whether or not `has_distributed_tests` is set —
and no distributed test run effect occurs in that evaluation. -/
theorem c6_mark_inactive_on_failure (cfg : IniConfig) (st : GlobalState)
    (beh : ProcBehavior) (tf td : String) (d : DistData)
    (hcmd : cfg.command ≠ "") (hpre : prec_ok cfg beh)
    (hfail : (∃ out err rc, beh.mainResult = .finished out err rc ∧ rc ≠ 0) ∨
      ∃ drained, beh.mainResult = .expired drained) :
    Effect.markInactive d.assignment_id d.student_id ∈
        (evaluate cfg st beh tf td d).1 ∧
      ∀ dc hi a b c, Effect.distRun dc hi a b c ∉ (evaluate cfg st beh tf td d).1 := by
  rcases evaluate_of_prec_ok cfg st beh tf td d hcmd hpre with ⟨pe, hpe, heq⟩
  have hpe_no_dist : ∀ dc hi a b c, Effect.distRun dc hi a b c ∉ pe := by
    rcases hpe with h | ⟨pre, h⟩ <;> subst h <;> intro dc hi a b c <;> simp
  rcases hfail with ⟨out, err, rc, hmain, hrc⟩ | ⟨drained, hmain⟩
  · rw [heq, main_step_nonzero cfg st beh tf td d pe out err rc hmain hrc]
    constructor
    · simp
    · intro dc hi a b c
      simp only [List.mem_append]
      rintro (hmem | hmem)
      · exact hpe_no_dist dc hi a b c hmem
      · simp at hmem
  · rw [heq, main_step_expired cfg st beh tf td d pe drained hmain]
    constructor
    · simp
    · intro dc hi a b c
      simp only [List.mem_append]
      rintro (hmem | hmem)
      · exact hpe_no_dist dc hi a b c hmem
      · simp at hmem

/-- A behavior whose main evaluation command fails with a non-zero exit
code, with distributed tests never enabled in the global state. -/
def beh_main_fail : ProcBehavior :=
  { precResult := .finished "built" "" 0, mainResult := .finished "2 tests FAILED" "" 2,
    distOutput := "" }

/-- Witness for `c6_mark_inactive_on_failure`: a concrete failing run with
`has_distributed_tests = false` still records the inactive marking, and no
distributed run with the configured parameters occurs. -/
theorem c6_witness :
    Effect.markInactive "101" "42" ∈
        (evaluate cfg_pre initial_globals beh_main_fail "fixed" "/tmp/sub" d0).1 ∧
      Effect.distRun "dt.sh" "10.0.0.1" "fixed" "/tmp/sub" "/tmp/sub/testcases.txt" ∉
        (evaluate cfg_pre initial_globals beh_main_fail "fixed" "/tmp/sub" d0).1 :=
  ⟨(c6_mark_inactive_on_failure cfg_pre initial_globals beh_main_fail
      "fixed" "/tmp/sub" d0 (by decide) (Or.inr ⟨"built", 0, rfl⟩)
      (Or.inl ⟨"2 tests FAILED", "", 2, rfl, by decide⟩)).1,
    (c6_mark_inactive_on_failure cfg_pre initial_globals beh_main_fail
      "fixed" "/tmp/sub" d0 (by decide) (Or.inr ⟨"built", 0, rfl⟩)
      (Or.inl ⟨"2 tests FAILED", "", 2, rfl, by decide⟩)).2
      "dt.sh" "10.0.0.1" "fixed" "/tmp/sub" "/tmp/sub/testcases.txt"⟩

/-- The command-line options stored by `set_config` and read through
`get_config()` during grading. -/
structure RunConfig where
  verbose : Bool
  dry_run : Bool
  force : Bool
  copy_tmpdir : Bool
deriving Repr, DecidableEq

/-- The one-character string holding the null character, the pattern of the
sanitizing `message.replace` before posting. -/
def null_string : String := ⟨[Char.ofNat 0]⟩

/-- Model of `message.replace("\0", "\\0")` at line 210: nulls are escaped
because they break the Canvas API. -/
def sanitize_message (m : String) : String :=
  py_replace m null_string "\\0"

/-- The exact comment text posted for a grade report:
the marker, a newline, then the sanitized message. -/
def grade_comment_text (message : String) : String :=
  "[AG]\n" ++ sanitize_message message

/-- Everything about one submission that the grading loop consumes:
identifying data, the regrade-decision inputs, and oracles for the three
fallible pipeline stages of the inner try block — `setupResult` stands for
`download_submission_attachments` plus `copy_files_to_submission_dir` plus
the construction of the distributed-tests data (`.error e` models any
exception raised there, with `str(e) = e`), `beh` drives the child
processes of `evaluate`, and `postResult` is the outcome of
`submission.edit` when a comment is posted. -/
structure SubmissionData where
  user_name : String
  user_id : String
  hasAttachments : Bool
  submission : Submission
  setupResult : Except String Unit
  beh : ProcBehavior
  postResult : Except String Unit
  tmpdir : String

/-- The effects and final message of the inner try block of
`grade_submissions` for one submission: on a setup exception the message is
the exception text; otherwise `evaluate` runs and its output (or the text
of the exception it raised) becomes the message. -/
def submission_message (cfg : IniConfig) (st : GlobalState) (tf : String)
    (aid : String) (sub : SubmissionData) : List Effect × String :=
  match sub.setupResult with
  | .error e => ([], e)
  | .ok _ =>
    match evaluate cfg st sub.beh tf sub.tmpdir ⟨aid, sub.user_id⟩ with
    | (effs, .ok out) => (effs, out)
    | (effs, .error e) => (effs, eval_error_message e)

/-- The reporting step for one submission: under `dry_run` the message is
only logged; otherwise the sanitized message is posted with the `[AG]`
marker prefix, and a posting failure is logged as a warning (grading is not
undone). -/
def report_effect (rcg : RunConfig) (sub : SubmissionData) (message : String) : Effect :=
  if rcg.dry_run then
    .logInfo ("would have said " ++ message ++ " to " ++ sub.user_name)
  else
    match sub.postResult with
    | .ok _ => .postComment sub.user_name (grade_comment_text message)
    | .error e =>
      .logWarn ("ERROR " ++ e ++ " sending " ++ sanitize_message message ++
        " to " ++ sub.user_name)

/-- One iteration of the submission loop of
`CanvasHandler.grade_submissions`: the submission is processed only when it
has attachments and (`force` or `should_check_submission`); then the inner
try block produces the message, `copy_tmpdir` optionally copies the
directory, and the report step runs. -/
def grade_one_submission (rcg : RunConfig) (cfg : IniConfig) (st : GlobalState)
    (tf : String) (aid : String) (sub : SubmissionData) : List Effect :=
  if sub.hasAttachments && (rcg.force || should_check_submission sub.submission) then
    (submission_message cfg st tf aid sub).1 ++
      (if rcg.copy_tmpdir then [.copyTree sub.tmpdir] else []) ++
      [report_effect rcg sub (submission_message cfg st tf aid sub).2]
  else []

/-- One assignment as consumed by the grading loop: its Canvas id and name,
the fresh per-assignment fixed directory, the optional descriptor file
contents (`none`: the `.codeval` file does not exist), the extra-file
archive oracle, and its submissions. -/
structure AssignmentData where
  id : String
  name : String
  temp_fixed : String
  descriptor : Option (List String)
  archives : String → Option (List String)
  submissions : List SubmissionData

/-- One iteration of the assignment loop of
`CanvasHandler.grade_submissions`: descriptor preparation failures
(missing file, bad directive, failed archive transfer) are caught by the
per-assignment handler, which logs and skips the assignment; otherwise
every submission is processed in order with the state the parse produced.
Failures inside one submission are already absorbed by
`grade_one_submission`. -/
def grade_assignment (rcg : RunConfig) (cfg : IniConfig) (st : GlobalState)
    (a : AssignmentData) : GlobalState × List Effect :=
  match get_valid_test_file cfg a.archives st a.descriptor with
  | (st1, _files, some e) => (st1, [.warnSkipAssignment a.name e])
  | (st1, _files, none) =>
    (st1, (a.submissions.map (grade_one_submission rcg cfg st1 a.temp_fixed a.id)).flatten)

/-- The assignment loop: assignments processed in order, threading the
process-global state. -/
def grade_submissions_run (rcg : RunConfig) (cfg : IniConfig) :
    GlobalState → List AssignmentData → GlobalState × List Effect
  | st, [] => (st, [])
  | st, a :: rest =>
    match grade_assignment rcg cfg st a with
    | (st1, effs) =>
      match grade_submissions_run rcg cfg st1 rest with
      | (st2, effs2) => (st2, effs ++ effs2)

theorem isPrefixOf_append_self (p t : List Char) : p.isPrefixOf (p ++ t) = true := by
  induction p with
  | nil => simp [List.isPrefixOf]
  | cons c cs ih => simp [List.isPrefixOf, ih]

theorem grade_comment_text_startswith (m : String) :
    str_startswith (grade_comment_text m) "[AG]" = true := by
  unfold str_startswith grade_comment_text
  rw [String.data_append]
  have : "[AG]\n".data = "[AG]".data ++ ['\n'] := by rfl
  rw [this, List.append_assoc]
  exact isPrefixOf_append_self "[AG]".data ('\n' :: (sanitize_message m).data)

/-- C9 (confirmed): the comment the grader posts is the `[AG]` marker
followed by a newline and the sanitized message, which satisfies exactly
the prefix test of the regrade decision; consequently a submission holding
such a posted comment created strictly after `submitted_at` is skipped by
a later non-forced pass (its grading produces no effects at all). -/
theorem c9_posted_comment_causes_skip (rcg : RunConfig) (cfg : IniConfig)
    (st : GlobalState) (tf aid : String) (sub : SubmissionData) (m : String)
    (c : SubmissionComment) (hc : c ∈ sub.submission.submission_comments)
    (htext : c.comment = grade_comment_text m)
    (hafter : str_lt sub.submission.submitted_at c.created_at = true)
    (hforce : rcg.force = false) :
    str_startswith (grade_comment_text m) "[AG]" = true ∧
      grade_one_submission rcg cfg st tf aid sub = [] := by
  refine ⟨grade_comment_text_startswith m, ?_⟩
  have hsc : should_check_submission sub.submission = false := by
    rw [should_check_submission_eq_false_iff]
    exact ⟨c, hc, by rw [htext]; exact grade_comment_text_startswith m, hafter⟩
  unfold grade_one_submission
  rw [hforce, hsc]
  simp

/-- A concrete submission carrying a previously posted grade comment newer
than its own timestamp. -/
def sub_already_graded : SubmissionData :=
  { user_name := "Ann", user_id := "42", hasAttachments := true,
    submission :=
      { submitted_at := "2024-01-01T00:00:00Z",
        submission_comments :=
          [{ comment := grade_comment_text "all tests passed",
             created_at := "2024-01-01T00:05:00Z" }] },
    setupResult := .ok (), beh := beh_ok, postResult := .ok (),
    tmpdir := "/tmp/sub" }

/-- Witness for `c9_posted_comment_causes_skip` at a concrete, already
graded submission. -/
theorem c9_witness :
    str_startswith (grade_comment_text "all tests passed") "[AG]" = true ∧
      grade_one_submission
        { verbose := false, dry_run := false, force := false, copy_tmpdir := false }
        cfg_pre initial_globals "fixed" "101" sub_already_graded = [] :=
  c9_posted_comment_causes_skip
    { verbose := false, dry_run := false, force := false, copy_tmpdir := false }
    cfg_pre initial_globals "fixed" "101" sub_already_graded "all tests passed"
    { comment := grade_comment_text "all tests passed",
      created_at := "2024-01-01T00:05:00Z" }
    (List.mem_singleton.mpr rfl) rfl (by decide) rfl

theorem prec_step_shape (cfg : IniConfig) (st : GlobalState) (beh : ProcBehavior) :
    (prec_step cfg st beh).1 = [] ∨
      ∃ pre, (prec_step cfg st beh).1 = [Effect.spawn pre none st.compile_timeout] := by
  unfold prec_step
  cases cfg.precommand with
  | none => exact Or.inl rfl
  | some pre =>
    cases beh.precResult with
    | finished o e r =>
      dsimp only
      split
      · exact Or.inr ⟨pre, rfl⟩
      · exact Or.inr ⟨pre, rfl⟩
    | expired po => exact Or.inr ⟨pre, rfl⟩

theorem main_step_no_post (cfg : IniConfig) (st : GlobalState)
    (beh : ProcBehavior) (tf td : String) (d : DistData) (effs : List Effect)
    (u t : String) (h : Effect.postComment u t ∉ effs) :
    Effect.postComment u t ∉ (main_step cfg st beh tf td d effs).1 := by
  unfold main_step
  cases beh.mainResult with
  | finished o e r =>
    dsimp only
    split
    · simp [h]
    · split
      · simp [h]
      · simp [h]
  | expired dr => simp [h]

theorem evaluate_no_post (cfg : IniConfig) (st : GlobalState)
    (beh : ProcBehavior) (tf td : String) (d : DistData) (u t : String) :
    Effect.postComment u t ∉ (evaluate cfg st beh tf td d).1 := by
  unfold evaluate
  by_cases hcmd : cfg.command = ""
  · rw [if_pos hcmd]
    simp
  · rw [if_neg hcmd]
    rcases h : prec_step cfg st beh with ⟨pe, err⟩
    have hpe : Effect.postComment u t ∉ pe := by
      have hs := prec_step_shape cfg st beh
      rw [h] at hs
      rcases hs with h1 | ⟨pre, h1⟩ <;> dsimp only at h1 <;> simp [h1]
    cases err with
    | none => exact main_step_no_post cfg st beh tf td d pe u t hpe
    | some e => exact hpe

theorem submission_message_no_post (cfg : IniConfig) (st : GlobalState)
    (tf aid : String) (sub : SubmissionData) (u t : String) :
    Effect.postComment u t ∉ (submission_message cfg st tf aid sub).1 := by
  unfold submission_message
  cases sub.setupResult with
  | error e => simp
  | ok _ =>
    dsimp only
    rcases h : evaluate cfg st sub.beh tf sub.tmpdir ⟨aid, sub.user_id⟩ with ⟨effs, r⟩
    have hmem := evaluate_no_post cfg st sub.beh tf sub.tmpdir ⟨aid, sub.user_id⟩ u t
    rw [h] at hmem
    cases r <;> simpa using hmem

/-- C10 (confirmed): under `dry_run` no comment is ever posted — the
posting effect never occurs in the trace — the trace agrees with the
non-dry-run trace except for the final reporting effect (grading and
evaluation proceed unchanged), and for a processed submission the trace
ends with the informational log of the grade message instead. -/
theorem c10_dry_run_frame (rcg : RunConfig) (cfg : IniConfig) (st : GlobalState)
    (tf aid : String) (sub : SubmissionData) (hdry : rcg.dry_run = true) :
    (∀ u t, Effect.postComment u t ∉ grade_one_submission rcg cfg st tf aid sub) ∧
      (grade_one_submission rcg cfg st tf aid sub).dropLast =
        (grade_one_submission { rcg with dry_run := false } cfg st tf aid sub).dropLast ∧
      ((sub.hasAttachments && (rcg.force || should_check_submission sub.submission)) = true →
        (grade_one_submission rcg cfg st tf aid sub).getLast? =
          some (.logInfo ("would have said " ++
            (submission_message cfg st tf aid sub).2 ++ " to " ++ sub.user_name))) := by
  refine ⟨?_, ?_, ?_⟩
  · intro u t
    unfold grade_one_submission
    split
    · simp only [List.append_assoc, List.mem_append, List.mem_singleton]
      rintro (hmem | hmem | hmem)
      · exact submission_message_no_post cfg st tf aid sub u t hmem
      · revert hmem
        split <;> simp
      · rw [report_effect, hdry] at hmem
        simp at hmem
    · simp
  · unfold grade_one_submission
    dsimp only
    by_cases hel :
        (sub.hasAttachments && (rcg.force || should_check_submission sub.submission)) = true
    · rw [if_pos hel, if_pos hel]
      rw [List.dropLast_concat, List.dropLast_concat]
    · rw [if_neg hel, if_neg hel]
  · intro hel
    unfold grade_one_submission
    rw [if_pos hel]
    rw [List.getLast?_concat]
    rw [report_effect, hdry]
    simp

/-- A dry run with forced regrading, used as a concrete configuration. -/
def rcg_dry : RunConfig :=
  { verbose := false, dry_run := true, force := true, copy_tmpdir := false }

/-- A plain well-formed submission with no comment history. -/
def sub_plain : SubmissionData :=
  { user_name := "Bob", user_id := "7", hasAttachments := true,
    submission := { submitted_at := "2024-01-02T00:00:00Z", submission_comments := [] },
    setupResult := .ok (), beh := beh_ok, postResult := .ok (),
    tmpdir := "/tmp/sub" }

/-- Witness for `c10_dry_run_frame` on a concrete dry run. -/
theorem c10_witness :
    Effect.postComment "Bob" (grade_comment_text "PASSED") ∉
        grade_one_submission rcg_dry cfg_pre initial_globals "fixed" "101" sub_plain ∧
      (grade_one_submission rcg_dry cfg_pre initial_globals "fixed" "101" sub_plain).dropLast =
        (grade_one_submission { rcg_dry with dry_run := false } cfg_pre initial_globals
          "fixed" "101" sub_plain).dropLast ∧
      (grade_one_submission rcg_dry cfg_pre initial_globals "fixed" "101" sub_plain).getLast? =
        some (.logInfo ("would have said " ++ "PASSED" ++ " to " ++ "Bob")) :=
  ⟨(c10_dry_run_frame rcg_dry cfg_pre initial_globals "fixed" "101" sub_plain rfl).1
      "Bob" (grade_comment_text "PASSED"),
    (c10_dry_run_frame rcg_dry cfg_pre initial_globals "fixed" "101" sub_plain rfl).2.1,
    (c10_dry_run_frame rcg_dry cfg_pre initial_globals "fixed" "101" sub_plain rfl).2.2
      (by decide)⟩

/-- C7 (confirmed): per-unit failure isolation. A submission whose
setup raises is caught and turned into a posted report whose text is the
exception description; the assignment trace is the concatenation of every
per-submission traces, so the next submission is still processed; and an
assignment whose descriptor file is missing is skipped with a warning
while the rest of the batch runs exactly as it would alone. -/
theorem c7_failure_isolation (rcg : RunConfig) (cfg : IniConfig) (st : GlobalState)
    (abad a : AssignmentData) (s1 s2 : SubmissionData) (e : String)
    (hbad : abad.descriptor = none)
    (hparse : (get_valid_test_file cfg a.archives st a.descriptor).2.2 = none)
    (hsubs : a.submissions = [s1, s2])
    (hs1 : s1.setupResult = Except.error e)
    (helig : s1.hasAttachments = true) (hforce : rcg.force = true)
    (hdry : rcg.dry_run = false) (hcopy : rcg.copy_tmpdir = false)
    (hpost : s1.postResult = Except.ok ()) :
    grade_one_submission rcg cfg (get_valid_test_file cfg a.archives st a.descriptor).1
        a.temp_fixed a.id s1 =
      [Effect.postComment s1.user_name (grade_comment_text e)] ∧
    (grade_assignment rcg cfg st a).2 =
      grade_one_submission rcg cfg (get_valid_test_file cfg a.archives st a.descriptor).1
          a.temp_fixed a.id s1 ++
        grade_one_submission rcg cfg (get_valid_test_file cfg a.archives st a.descriptor).1
          a.temp_fixed a.id s2 ∧
    (grade_submissions_run rcg cfg st [abad, a]).2 =
      Effect.warnSkipAssignment abad.name "FileNotFoundError" ::
        (grade_submissions_run rcg cfg st [a]).2 := by
  have hmsg : submission_message cfg
      (get_valid_test_file cfg a.archives st a.descriptor).1 a.temp_fixed a.id s1 =
      ([], e) := by
    unfold submission_message
    rw [hs1]
  have hone : grade_one_submission rcg cfg
      (get_valid_test_file cfg a.archives st a.descriptor).1 a.temp_fixed a.id s1 =
      [Effect.postComment s1.user_name (grade_comment_text e)] := by
    unfold grade_one_submission
    rw [helig, hforce]
    simp only [Bool.true_and, Bool.true_or, if_pos]
    rw [hmsg, hcopy]
    unfold report_effect
    rw [hdry, hpost]
    simp
  refine ⟨hone, ?_, ?_⟩
  · unfold grade_assignment
    rcases hg : get_valid_test_file cfg a.archives st a.descriptor with ⟨st1, files, err⟩
    rw [hg] at hparse
    dsimp only at hparse
    subst hparse
    dsimp only
    rw [hsubs]
    simp
  · have hbadeq : grade_assignment rcg cfg st abad =
        (st, [Effect.warnSkipAssignment abad.name "FileNotFoundError"]) := by
      unfold grade_assignment get_valid_test_file
      rw [hbad]
    rcases h1 : grade_assignment rcg cfg st a with ⟨st1, effs1⟩
    simp [grade_submissions_run, hbadeq, h1]

/-- A submission whose setup (attachment download) raises. -/
def sub_broken : SubmissionData :=
  { user_name := "Ann", user_id := "42", hasAttachments := true,
    submission := { submitted_at := "2024-01-02T00:00:00Z", submission_comments := [] },
    setupResult := .error "FileNotFoundError: attachment.zip",
    beh := beh_ok, postResult := .ok (), tmpdir := "/tmp/s1" }

/-- A well-formed assignment with a broken first submission and a good
second one. -/
def assign_ok : AssignmentData :=
  { id := "101", name := "hw1", temp_fixed := "fixedA",
    descriptor := some [], archives := no_archives,
    submissions := [sub_broken, sub_plain] }

/-- An assignment whose descriptor file does not exist. -/
def assign_missing : AssignmentData :=
  { id := "100", name := "hw0", temp_fixed := "fixedB",
    descriptor := none, archives := no_archives, submissions := [] }

/-- A non-dry forced run. -/
def rcg_live : RunConfig :=
  { verbose := false, dry_run := false, force := true, copy_tmpdir := false }

/-- Witness for `c7_failure_isolation` on the concrete two-assignment
batch. -/
theorem c7_witness :
    grade_one_submission rcg_live cfg_pre
        (get_valid_test_file cfg_pre no_archives initial_globals (some [])).1
        "fixedA" "101" sub_broken =
      [Effect.postComment "Ann"
        (grade_comment_text "FileNotFoundError: attachment.zip")] ∧
    (grade_assignment rcg_live cfg_pre initial_globals assign_ok).2 =
      grade_one_submission rcg_live cfg_pre
          (get_valid_test_file cfg_pre no_archives initial_globals (some [])).1
          "fixedA" "101" sub_broken ++
        grade_one_submission rcg_live cfg_pre
          (get_valid_test_file cfg_pre no_archives initial_globals (some [])).1
          "fixedA" "101" sub_plain ∧
    (grade_submissions_run rcg_live cfg_pre initial_globals
        [assign_missing, assign_ok]).2 =
      Effect.warnSkipAssignment "hw0" "FileNotFoundError" ::
        (grade_submissions_run rcg_live cfg_pre initial_globals [assign_ok]).2 :=
  c7_failure_isolation rcg_live cfg_pre initial_globals assign_missing assign_ok
    sub_broken sub_plain "FileNotFoundError: attachment.zip"
    rfl (by decide) rfl rfl rfl rfl rfl rfl rfl

/-- A directory is modelled as an association list from file name to file
content; later writes shadow earlier ones through `write_file`. -/
abbrev Dir := List (String × String)

/-- Modelled from the spec: writing one file into a directory replaces any
existing file of the same name (section 4.2 — copying and extraction
overwrite same-named files). The write helpers live in file_utils.py,
which is not part of the provided source. -/
def write_file (d : Dir) (name content : String) : Dir :=
  d.filter (fun p => p.1 != name) ++ [(name, content)]

/-- Modelled from the spec: `unzip(path, dest, delete=True)` extracts every
file of the archive into the directory in order and leaves no archive
behind (section 4.2 — each attachment archive is extracted and then
deleted). -/
def unzip_into (d : Dir) (files : List (String × String)) : Dir :=
  files.foldl (fun acc p => write_file acc p.1 p.2) d

/-- Embedding of `CanvasHandler.download_submission_attachments`: each
attachment is downloaded into the submission directory and extracted with
deletion of the archive. -/
def download_submission_attachments (d : Dir)
    (attachments : List (List (String × String))) : Dir :=
  attachments.foldl unzip_into d

/-- Modelled from the spec: `copy_files_to_submission_dir(fixed, dir)`
copies every fixed file into the submission directory, overwriting
same-named files (section 4.2 — fixed test assets always take precedence);
the implementation lives in file_utils.py, which is not part of the
provided source. -/
def copy_files_to_submission_dir (fixed : Dir) (d : Dir) : Dir :=
  fixed.foldl (fun acc p => write_file acc p.1 p.2) d

/-- The workspace construction order of `grade_submissions` lines 184-185:
first the student attachments are extracted into the fresh submission
directory, then the fixed files are copied in over them. -/
def build_workspace (fixed : Dir) (attachments : List (List (String × String))) : Dir :=
  copy_files_to_submission_dir fixed (download_submission_attachments [] attachments)

/-- Reading a file from the modelled directory: the last write wins. -/
def read_file (d : Dir) (name : String) : Option String :=
  (d.reverse.find? (fun p => p.1 == name)).map (fun p => p.2)

/-- C8 (confirmed): building a workspace from a fixed directory holding
`a.txt` and one student archive holding a different `a.txt` and a `b.txt`
yields `a.txt` with the fixed content and `b.txt` with the student
content, because the fixed files are copied after the student extraction
and overwrite same-named files. -/
theorem c8_fixed_files_win (fixedA studA studB : String) (h : fixedA ≠ studA) :
    read_file (build_workspace [("a.txt", fixedA)]
        [[("a.txt", studA), ("b.txt", studB)]]) "a.txt" = some fixedA ∧
      read_file (build_workspace [("a.txt", fixedA)]
        [[("a.txt", studA), ("b.txt", studB)]]) "b.txt" = some studB := by
  exact ⟨rfl, rfl⟩

/-- Witness for `c8_fixed_files_win` at concrete contents. -/
theorem c8_witness :
    read_file (build_workspace [("a.txt", "fixed content")]
        [[("a.txt", "student content"), ("b.txt", "student extra")]]) "a.txt" =
        some "fixed content" ∧
      read_file (build_workspace [("a.txt", "fixed content")]
        [[("a.txt", "student content"), ("b.txt", "student extra")]]) "b.txt" =
        some "student extra" :=
  c8_fixed_files_win "fixed content" "student content" "student extra" (by decide)
